import Mathlib

/-!
Shallow embedding of `cdk_project/cdk_project_stack.py`
(`CdkProjectStack`), an AWS CDK stack declaring a VPC, two security
groups, an EC2 instance, an RDS MySQL instance, an IAM role for the
EventBridge Scheduler, two cron schedules that stop/start the RDS
instance, and two stack outputs.  The stack construction is
straight-line declarative code; we embed it as a record built by a
function that mirrors the Python source statement by statement.
Values that the cloud provider resolves only at deployment time (the
partition/region/account, the physical database instance identifier,
the endpoint address, the private IP, the number of availability
zones offered by the region) are parameters of the construction.
-/

namespace CdkProject

/-- Char constants used to build strings character by character. -/
def quoteChar : Char := Char.ofNat 34

/-- Backslash character. -/
def backslashChar : Char := Char.ofNat 92

/-- Left curly brace character. -/
def lbrace : Char := Char.ofNat 123

/-- Right curly brace character. -/
def rbrace : Char := Char.ofNat 125

/-- Deployment-time parameters: values the provider or the framework
resolves outside of this declaration (CloudFormation tokens). -/
structure StackParams where
  partition : String
  region : String
  account : String
  dbInstanceIdentifier : String
  availableAzs : Nat
  dbEndpointAddress : String
  instancePrivateIp : String
deriving Repr

/-- The source of an ingress rule (`ec2.Peer` / a security group). -/
inductive Peer where
  | anyIpv4 : Peer
  | ipv4 : String → Peer
  | securityGroupRef : String → Peer
deriving DecidableEq, Repr

/-- Whether a peer is a CIDR-range source (rather than a security
group reference).  `anyIpv4` is the open range 0.0.0.0/0; `ipv4 c`
is the range `c` (for example the whole VPC address block). -/
def Peer.isCidrRange : Peer → Bool
  | .anyIpv4 => true
  | .ipv4 _ => true
  | .securityGroupRef _ => false

/-- A protocol/port selector (`ec2.Port`). -/
structure Port where
  protocol : String
  portNumber : Nat
deriving DecidableEq, Repr

/-- Embeds `ec2.Port.tcp(n)`. -/
def Port.tcp (n : Nat) : Port := ⟨"tcp", n⟩

/-- One ingress rule of a security group. -/
structure IngressRule where
  source : Peer
  port : Port
  ruleDescription : String
deriving DecidableEq, Repr

/-- A security group (`ec2.SecurityGroup`). -/
structure SecurityGroup where
  constructId : String
  sgDescription : String
  allowAllOutbound : Bool
  ingressRules : List IngressRule
deriving DecidableEq, Repr

/-- Embeds `sg.add_ingress_rule(peer, port, description)`: appends one
rule to the group's ingress rule set. -/
def SecurityGroup.addIngressRule (sg : SecurityGroup) (peer : Peer)
    (p : Port) (d : String) : SecurityGroup :=
  { sg with ingressRules := sg.ingressRules ++ [⟨peer, p, d⟩] }

/-- Subnet tiers of the VPC. -/
inductive SubnetTier where
  | publicSubnet : SubnetTier
  | privateWithEgress : SubnetTier
deriving DecidableEq, Repr

/-- Modelled from the spec: the framework's network construct, when
given no explicit subnet configuration (as in this stack), creates a
public and a private subnet tier in each availability zone, and uses
`min maxAzs availableAzs` availability zones.  The spec: "Must
produce a virtual network spanning ≥2 availability zones with both
public and private subnet tiers". -/
def defaultSubnetTiers : List SubnetTier :=
  [SubnetTier.publicSubnet, SubnetTier.privateWithEgress]

/-- A VPC (`ec2.Vpc`). -/
structure Vpc where
  constructId : String
  maxAzs : Nat
  azCount : Nat
  subnetTiers : List SubnetTier
deriving DecidableEq, Repr

/-- EC2 instance classes used by the stack (`ec2.InstanceClass`). -/
inductive InstanceClass where
  | T3 : InstanceClass
deriving DecidableEq, Repr

/-- EC2 instance sizes used by the stack (`ec2.InstanceSize`). -/
inductive InstanceSize where
  | MICRO : InstanceSize
deriving DecidableEq, Repr

/-- An EC2 instance type (`ec2.InstanceType.of(cls, size)`). -/
structure InstanceType where
  instanceClass : InstanceClass
  instanceSize : InstanceSize
deriving DecidableEq, Repr

/-- Embeds `ec2.InstanceType.of`. -/
def InstanceType.of (c : InstanceClass) (s : InstanceSize) : InstanceType :=
  ⟨c, s⟩

/-- The EC2 instance (`ec2.Instance`). -/
structure Ec2Instance where
  constructId : String
  instanceTypeName : String
  machineImage : String
  securityGroupId : String
deriving DecidableEq, Repr

/-- A database engine with a pinned version
(`rds.DatabaseInstanceEngine.mysql(version=...)`). -/
structure DbEngine where
  engineType : String
  engineVersion : String
deriving DecidableEq, Repr

/-- Embeds `rds.MysqlEngineVersion.VER_8_0_43`. -/
def MysqlEngineVersion.VER_8_0_43 : String := "8.0.43"

/-- Embeds `rds.DatabaseInstanceEngine.mysql(version=v)`. -/
def DatabaseInstanceEngine.mysql (v : String) : DbEngine := ⟨"mysql", v⟩

/-- Storage types used by the stack (`rds.StorageType`). -/
inductive StorageType where
  | GP2 : StorageType
deriving DecidableEq, Repr

/-- Removal policies (`RemovalPolicy`). -/
inductive RemovalPolicy where
  | DESTROY : RemovalPolicy
  | RETAIN : RemovalPolicy
deriving DecidableEq, Repr

/-- The RDS database instance (`rds.DatabaseInstance`). -/
structure DatabaseInstance where
  constructId : String
  engine : DbEngine
  instanceType : InstanceType
  securityGroupIds : List String
  multiAz : Bool
  allocatedStorage : Nat
  storageType : StorageType
  deletionProtection : Bool
  removalPolicy : RemovalPolicy
  instanceIdentifier : String
  instanceArn : String
deriving DecidableEq, Repr

/-- Modelled from the spec: the ARN ("a provider-specific globally
unique resource identifier string") of the database instance, in the
format the framework renders for `rds_instance.instance_arn`:
`arn:partition:rds:region:account:db:identifier`. -/
def rdsInstanceArnOf (p : StackParams) : String :=
  "arn:" ++ p.partition ++ ":rds:" ++ p.region ++ ":" ++ p.account
    ++ ":db:" ++ p.dbInstanceIdentifier

/-- A principal that may assume a role. -/
inductive Principal where
  | servicePrincipal : String → Principal
deriving DecidableEq, Repr

/-- One IAM policy statement (`iam.PolicyStatement`). -/
structure PolicyStatement where
  actions : List String
  resources : List String
deriving DecidableEq, Repr

/-- An IAM role (`iam.Role`). -/
structure Role where
  constructId : String
  trustPrincipals : List Principal
  statements : List PolicyStatement
deriving DecidableEq, Repr

/-- Embeds `role.add_to_policy(stmt)`: appends one inline statement. -/
def Role.addToPolicy (r : Role) (s : PolicyStatement) : Role :=
  { r with statements := r.statements ++ [s] }

/-- The target of a schedule (`scheduler.CfnSchedule.TargetProperty`). -/
structure ScheduleTarget where
  arn : String
  roleRef : String
  input : String
deriving DecidableEq, Repr

/-- A schedule (`scheduler.CfnSchedule`). -/
structure CfnSchedule where
  constructId : String
  flexibleTimeWindowMode : String
  scheduleExpression : String
  target : ScheduleTarget
  scheduleDescription : String
deriving DecidableEq, Repr

/-- The characters of the JSON key `DbInstanceIdentifier`. -/
def dbKeyChars : List Char :=
  ['D', 'b', 'I', 'n', 's', 't', 'a', 'n', 'c', 'e',
   'I', 'd', 'e', 'n', 't', 'i', 'f', 'i', 'e', 'r']

/-- The JSON key string `DbInstanceIdentifier`. -/
def dbKey : String := String.mk dbKeyChars

/-- Embeds the Python f-string
`f'{{"DbInstanceIdentifier": "{x}"}}'`: the literal prefix
`{"DbInstanceIdentifier": "`, then the identifier, then the literal
suffix `"}`.  This is string interpolation, not JSON serialization of
the `target_payload` dictionary. -/
def interpolatedInput (x : String) : String :=
  String.mk ((lbrace :: quoteChar :: dbKeyChars
    ++ [quoteChar, ':', ' ', quoteChar]) ++ x.data ++ [quoteChar, rbrace])

/-- A resource declared by the stack, for counting resources of each
kind in the synthesized template. -/
inductive Resource where
  | vpcRes : Vpc → Resource
  | sgRes : SecurityGroup → Resource
  | ec2Res : Ec2Instance → Resource
  | rdsRes : DatabaseInstance → Resource
  | roleRes : Role → Resource
  | scheduleRes : CfnSchedule → Resource
  | outputRes : String → String → Resource
deriving DecidableEq, Repr

/-- Whether a resource is a virtual network. -/
def Resource.isVpc : Resource → Bool
  | .vpcRes _ => true
  | _ => false

/-- Whether a resource is a database instance. -/
def Resource.isDb : Resource → Bool
  | .rdsRes _ => true
  | _ => false

/-- The fully constructed stack. -/
structure StackModel where
  vpc : Vpc
  sg : SecurityGroup
  ec2Instance : Ec2Instance
  rdsSg : SecurityGroup
  rdsInstance : DatabaseInstance
  schedulerRole : Role
  targetPayload : List (String × String)
  stopSchedule : CfnSchedule
  startSchedule : CfnSchedule
  outputs : List (String × String)
  resources : List Resource
deriving Repr

/-- Embedding of `CdkProjectStack.__init__`, statement by statement in
source order.  `p` carries the deployment-time resolved values. -/
def cdkProjectStack (p : StackParams) : StackModel :=
  let vpc : Vpc :=
    { constructId := "Vpc", maxAzs := 2,
      azCount := min 2 p.availableAzs,
      subnetTiers := defaultSubnetTiers }
  let sg0 : SecurityGroup :=
    { constructId := "InstanceSecurityGroup",
      sgDescription := "Allow SSH access",
      allowAllOutbound := true, ingressRules := [] }
  let sg := sg0.addIngressRule Peer.anyIpv4 (Port.tcp 22) "allow SSH"
  let ec2Inst : Ec2Instance :=
    { constructId := "Ec2Instance", instanceTypeName := "t3.micro",
      machineImage := "amazon-linux-2", securityGroupId := sg.constructId }
  let rdsSg0 : SecurityGroup :=
    { constructId := "RdsSecurityGroup",
      sgDescription := "Allow database access",
      allowAllOutbound := true, ingressRules := [] }
  let rdsInst : DatabaseInstance :=
    { constructId := "RdsInstance",
      engine := DatabaseInstanceEngine.mysql MysqlEngineVersion.VER_8_0_43,
      instanceType := InstanceType.of InstanceClass.T3 InstanceSize.MICRO,
      securityGroupIds := [rdsSg0.constructId],
      multiAz := false, allocatedStorage := 20,
      storageType := StorageType.GP2, deletionProtection := false,
      removalPolicy := RemovalPolicy.DESTROY,
      instanceIdentifier := p.dbInstanceIdentifier,
      instanceArn := rdsInstanceArnOf p }
  let schedulerRole0 : Role :=
    { constructId := "SchedulerRole",
      trustPrincipals := [Principal.servicePrincipal "scheduler.amazonaws.com"],
      statements := [] }
  let schedulerRole := schedulerRole0.addToPolicy
    { actions := ["rds:StartDBInstance", "rds:StopDBInstance"],
      resources := [rdsInst.instanceArn] }
  let targetPayload : List (String × String) :=
    [(dbKey, rdsInst.instanceIdentifier)]
  let stopSchedule : CfnSchedule :=
    { constructId := "StopRdsSchedule",
      flexibleTimeWindowMode := "OFF",
      scheduleExpression := "cron(30 6 * * ? *)",
      target :=
        { arn := "arn:aws:scheduler:::aws-sdk:rds:stopDBInstance",
          roleRef := schedulerRole.constructId,
          input := interpolatedInput rdsInst.instanceIdentifier },
      scheduleDescription := "Stops RDS instance at 6 PM UTC" }
  let startSchedule : CfnSchedule :=
    { constructId := "StartRdsSchedule",
      flexibleTimeWindowMode := "OFF",
      scheduleExpression := "cron(30 22 ? * MON-FRI *)",
      target :=
        { arn := "arn:aws:scheduler:::aws-sdk:rds:startDBInstance",
          roleRef := schedulerRole.constructId,
          input := interpolatedInput rdsInst.instanceIdentifier },
      scheduleDescription := "Starts RDS instance at 8 AM UTC (Mon-Fri)" }
  let rdsSg := rdsSg0.addIngressRule (Peer.securityGroupRef sg.constructId)
    (Port.tcp 3306) "Allow MySQL access from EC2 instance"
  let outputs : List (String × String) :=
    [("DBEndpoint", p.dbEndpointAddress),
     ("EC2InstancePrivateIP", p.instancePrivateIp)]
  { vpc := vpc, sg := sg, ec2Instance := ec2Inst, rdsSg := rdsSg,
    rdsInstance := rdsInst, schedulerRole := schedulerRole,
    targetPayload := targetPayload, stopSchedule := stopSchedule,
    startSchedule := startSchedule, outputs := outputs,
    resources :=
      [Resource.vpcRes vpc, Resource.sgRes sg, Resource.ec2Res ec2Inst,
       Resource.sgRes rdsSg, Resource.rdsRes rdsInst,
       Resource.roleRes schedulerRole,
       Resource.scheduleRes stopSchedule,
       Resource.scheduleRes startSchedule,
       Resource.outputRes "DBEndpoint" p.dbEndpointAddress,
       Resource.outputRes "EC2InstancePrivateIP" p.instancePrivateIp] }

/-- A sample parameter valuation, used by witnesses. -/
def sampleParams : StackParams :=
  { partition := "aws", region := "us-east-1", account := "123456789012",
    dbInstanceIdentifier := "rdsinstance1abc", availableAzs := 6,
    dbEndpointAddress := "db.example.internal",
    instancePrivateIp := "10.0.1.5" }

/-! JSON object reader, for checking that a schedule's `input` string
is a well-formed JSON object of string values.  It accepts the
fragment of JSON consisting of one-level objects whose values are
strings; accepting a string in this fragment certifies it is
well-formed JSON. -/

/-- Whether a character is JSON insignificant whitespace. -/
def isWsChar (c : Char) : Bool :=
  c = ' ' || c = Char.ofNat 9 || c = Char.ofNat 10 || c = Char.ofNat 13

/-- Drop leading JSON whitespace. -/
def skipWs : List Char → List Char
  | [] => []
  | c :: rest => if isWsChar c then skipWs rest else c :: rest

/-- Decode a JSON string escape character (the character after a
backslash). -/
def escChar (c : Char) : Option Char :=
  if c = quoteChar then some quoteChar
  else if c = backslashChar then some backslashChar
  else if c = '/' then some '/'
  else if c = 'n' then some (Char.ofNat 10)
  else if c = 't' then some (Char.ofNat 9)
  else if c = 'r' then some (Char.ofNat 13)
  else if c = 'b' then some (Char.ofNat 8)
  else if c = 'f' then some (Char.ofNat 12)
  else none

/-- Read the body of a JSON string (the opening quote already
consumed), returning the decoded string and the remaining input. -/
def jstringAux (l : List Char) (acc : List Char) : Option (String × List Char) :=
  match l with
  | [] => none
  | c :: rest =>
    if c = quoteChar then some (String.mk acc.reverse, rest)
    else if c = backslashChar then
      match rest with
      | [] => none
      | e :: rest2 =>
        match escChar e with
        | some ec => jstringAux rest2 (ec :: acc)
        | none => none
    else jstringAux rest (c :: acc)

/-- Read one `"key": "value"` pair, returning the pair and the
remaining input. -/
def jpair (l : List Char) : Option ((String × String) × List Char) :=
  match skipWs l with
  | [] => none
  | c :: rest =>
    if c = quoteChar then
      match jstringAux rest [] with
      | none => none
      | some (k, rest1) =>
        match skipWs rest1 with
        | [] => none
        | c2 :: rest2 =>
          if c2 = ':' then
            match skipWs rest2 with
            | [] => none
            | c3 :: rest3 =>
              if c3 = quoteChar then
                match jstringAux rest3 [] with
                | none => none
                | some (v, rest4) => some ((k, v), rest4)
              else none
          else none
    else none

/-- Read the pairs of an object after its opening brace, expecting the
closing brace and then end of input.  `fuel` bounds the recursion. -/
def jobjAux : Nat → List Char → List (String × String) →
    Option (List (String × String))
  | 0, _, _ => none
  | fuel + 1, l, acc =>
    match jpair l with
    | none => none
    | some (kv, rest) =>
      match skipWs rest with
      | [] => none
      | c :: rest2 =>
        if c = ',' then jobjAux fuel rest2 (kv :: acc)
        else if c = rbrace then
          if skipWs rest2 = [] then some (kv :: acc).reverse else none
        else none

/-- Read a whole string as a JSON object of string values, returning
its key/value pairs in order. -/
def parseJsonObject (s : String) : Option (List (String × String)) :=
  match skipWs s.data with
  | [] => none
  | c :: rest =>
    if c = lbrace then jobjAux (rest.length + 1) rest [] else none

/-! Cron expression reader and semantics, for the two schedule
expressions.  The EventBridge Scheduler `cron(...)` format has six
fields: minutes, hours, day-of-month, month, day-of-week, year, with
day-of-week numbered 1 (Sunday) through 7 (Saturday) and day names
SUN..SAT. -/

/-- One field of a cron expression. -/
inductive CronField where
  | star : CronField
  | question : CronField
  | exact : Nat → CronField
  | range : Nat → Nat → CronField
deriving DecidableEq, Repr

/-- A six-field cron expression. -/
structure CronExpr where
  minuteF : CronField
  hourF : CronField
  dayOfMonthF : CronField
  monthF : CronField
  dayOfWeekF : CronField
  yearF : CronField
deriving DecidableEq, Repr

/-- Split a character list on a separator character. -/
def splitCharAux (sep : Char) : List Char → List Char → List (List Char)
  | [], acc => [acc.reverse]
  | c :: rest, acc =>
    if c = sep then acc.reverse :: splitCharAux sep rest []
    else splitCharAux sep rest (c :: acc)

/-- Split a character list on a separator character. -/
def splitChar (sep : Char) (l : List Char) : List (List Char) :=
  splitCharAux sep l []

/-- Whether a character is a decimal digit. -/
def isDigitChar (c : Char) : Bool := '0' ≤ c && c ≤ '9'

/-- Read a nonempty digit list as a number. -/
def natOfDigits : List Char → Nat → Option Nat
  | [], _ => none
  | [c], acc =>
    if isDigitChar c then some (acc * 10 + (c.toNat - 48)) else none
  | c :: rest, acc =>
    if isDigitChar c then natOfDigits rest (acc * 10 + (c.toNat - 48))
    else none

/-- Day-of-week names, numbered 1 (Sunday) through 7 (Saturday). -/
def dayName (l : List Char) : Option Nat :=
  if l = ['S', 'U', 'N'] then some 1
  else if l = ['M', 'O', 'N'] then some 2
  else if l = ['T', 'U', 'E'] then some 3
  else if l = ['W', 'E', 'D'] then some 4
  else if l = ['T', 'H', 'U'] then some 5
  else if l = ['F', 'R', 'I'] then some 6
  else if l = ['S', 'A', 'T'] then some 7
  else none

/-- A cron field value: a number or a day-of-week name. -/
def cronValue (l : List Char) : Option Nat :=
  match natOfDigits l 0 with
  | some n => some n
  | none => dayName l

/-- Read one cron field: `*`, `?`, a value, or a `lo-hi` range. -/
def cronField (l : List Char) : Option CronField :=
  if l = ['*'] then some CronField.star
  else if l = ['?'] then some CronField.question
  else
    match splitChar '-' l with
    | [v] => (cronValue v).map CronField.exact
    | [lo, hi] =>
      match cronValue lo, cronValue hi with
      | some a, some b => some (CronField.range a b)
      | _, _ => none
    | _ => none

/-- Drop a trailing right parenthesis. -/
def dropRParen : List Char → Option (List Char)
  | [] => none
  | [c] => if c = ')' then some [] else none
  | c :: rest => (dropRParen rest).map (fun t => c :: t)

/-- Strip the `cron(` prefix and `)` suffix. -/
def stripCronWrapper (l : List Char) : Option (List Char) :=
  match l with
  | 'c' :: 'r' :: 'o' :: 'n' :: '(' :: rest => dropRParen rest
  | _ => none

/-- Read a `cron(m h dom mon dow y)` expression. -/
def parseCron (s : String) : Option CronExpr :=
  match stripCronWrapper s.data with
  | none => none
  | some body =>
    match splitChar ' ' body with
    | [f1, f2, f3, f4, f5, f6] =>
      match cronField f1, cronField f2, cronField f3,
            cronField f4, cronField f5, cronField f6 with
      | some m, some h, some dom, some mon, some dow, some y =>
        some ⟨m, h, dom, mon, dow, y⟩
      | _, _, _, _, _, _ => none
    | _ => none

/-- Whether a field admits a value.  `*` and `?` admit every value. -/
def fieldMatches : CronField → Nat → Bool
  | .star, _ => true
  | .question, _ => true
  | .exact n, v => v == n
  | .range lo hi, v => lo ≤ v && v ≤ hi

/-- Whether a cron expression fires at the given instant, described by
minute, hour, day-of-month, month, day-of-week (1 = Sunday through
7 = Saturday) and year. -/
def firesAt (e : CronExpr) (minute hour dom mon dow year : Nat) : Bool :=
  fieldMatches e.minuteF minute && fieldMatches e.hourF hour
    && fieldMatches e.dayOfMonthF dom && fieldMatches e.monthF mon
    && fieldMatches e.dayOfWeekF dow && fieldMatches e.yearF year

/-- The parsed form of the stop schedule's expression. -/
def stopCronExpr : CronExpr :=
  ⟨CronField.exact 30, CronField.exact 6, CronField.star,
   CronField.star, CronField.question, CronField.star⟩

/-- The parsed form of the start schedule's expression. -/
def startCronExpr : CronExpr :=
  ⟨CronField.exact 30, CronField.exact 22, CronField.question,
   CronField.star, CronField.range 2 6, CronField.star⟩

/-- Rebuilding a string from its character data is the identity. -/
theorem stringMk_data (s : String) : String.mk s.data = s := rfl

/-- Reading a JSON string body consisting of characters that are
neither a quote nor a backslash, followed by a closing quote,
returns exactly those characters. -/
theorem jstringAux_clean (l : List Char) (acc rest : List Char)
    (h : ∀ c ∈ l, c ≠ quoteChar ∧ c ≠ backslashChar) :
    jstringAux (l ++ quoteChar :: rest) acc
      = some (String.mk (acc.reverse ++ l), rest) := by
  induction l generalizing acc with
  | nil =>
    rw [List.append_nil, List.nil_append, jstringAux.eq_def]
    simp
  | cons c t ih =>
    have hc := h c (List.mem_cons_self c t)
    have ht : ∀ x ∈ t, x ≠ quoteChar ∧ x ≠ backslashChar :=
      fun x hx => h x (List.mem_cons_of_mem c hx)
    rw [List.cons_append, jstringAux.eq_def]
    simp only [if_neg hc.1, if_neg hc.2]
    rw [ih (c :: acc) ht]
    simp

/-- Reading the pair of the interpolated payload returns the key
`DbInstanceIdentifier` and the interpolated identifier. -/
theorem jpair_interpolated (x : String)
    (h : ∀ c ∈ x.data, c ≠ quoteChar ∧ c ≠ backslashChar) :
    jpair (quoteChar :: dbKeyChars ++ [quoteChar, ':', ' ', quoteChar]
        ++ x.data ++ [quoteChar, rbrace])
      = some ((dbKey, x), [rbrace]) := by
  have hv : jstringAux (x.data ++ [quoteChar, rbrace]) [] = some (x, [rbrace]) := by
    have h2 := jstringAux_clean x.data [] [rbrace] h
    simpa [stringMk_data] using h2
  have h1 : jpair (quoteChar :: dbKeyChars ++ [quoteChar, ':', ' ', quoteChar]
        ++ x.data ++ [quoteChar, rbrace])
      = (match jstringAux (x.data ++ [quoteChar, rbrace]) [] with
         | none => none
         | some (v, rest4) => some ((dbKey, v), rest4)) := rfl
  rw [h1, hv]

/-- Reading an object whose single pair is followed directly by the
closing brace and end of input returns that one pair. -/
theorem jobjAux_single (fuel : Nat) (l : List Char) (kv : String × String)
    (hp : jpair l = some (kv, [rbrace])) :
    jobjAux (fuel + 1) l [] = some [kv] := by
  simp only [jobjAux, hp]
  rfl

/-- The interpolated payload string reads back as a JSON object with
the single key `DbInstanceIdentifier` bound to the identifier,
provided the identifier contains no quote and no backslash. -/
theorem parseJsonObject_interpolated (x : String)
    (h : ∀ c ∈ x.data, c ≠ quoteChar ∧ c ≠ backslashChar) :
    parseJsonObject (interpolatedInput x) = some [(dbKey, x)] := by
  have h0 : parseJsonObject (interpolatedInput x)
      = jobjAux ((quoteChar :: dbKeyChars ++ [quoteChar, ':', ' ', quoteChar]
            ++ x.data ++ [quoteChar, rbrace]).length + 1)
          (quoteChar :: dbKeyChars ++ [quoteChar, ':', ' ', quoteChar]
            ++ x.data ++ [quoteChar, rbrace]) [] := rfl
  rw [h0]
  exact jobjAux_single _ _ _ (jpair_interpolated x h)

/-- The database instance's ARN starts with `arn:`, so it is never the
wildcard resource `*`. -/
theorem rdsInstanceArnOf_ne_star (p : StackParams) : rdsInstanceArnOf p ≠ "*" := by
  intro he
  have hlen := congrArg String.length he
  simp only [rdsInstanceArnOf, String.length_append] at hlen
  have h4 : ("arn:" : String).length = 4 := rfl
  have h1 : ("*" : String).length = 1 := rfl
  omega

/-- C1: the database security group's ingress rule set contains
exactly one rule, whose source is the compute instance's security
group and whose protocol/port is TCP 3306; no rule in it has a CIDR
range (open or otherwise) as its source, and no rule mentions
port 5432 (the commented-out VPC-wide rule is absent). -/
theorem c1_rds_sg_rules (p : StackParams) :
    (cdkProjectStack p).rdsSg.ingressRules
        = [{ source := Peer.securityGroupRef (cdkProjectStack p).sg.constructId,
             port := Port.tcp 3306,
             ruleDescription := "Allow MySQL access from EC2 instance" }]
      ∧ (cdkProjectStack p).rdsSg.ingressRules.all
          (fun r => ! r.source.isCidrRange) = true
      ∧ (cdkProjectStack p).rdsSg.ingressRules.all
          (fun r => r.port.portNumber != 5432) = true := by
  exact ⟨rfl, rfl, rfl⟩

/-- C1 witness: the rule set at a concrete parameter valuation. -/
theorem c1_rds_sg_rules_witness :
    (cdkProjectStack sampleParams).rdsSg.ingressRules
      = [{ source := Peer.securityGroupRef "InstanceSecurityGroup",
           port := Port.tcp 3306,
           ruleDescription := "Allow MySQL access from EC2 instance" }] :=
  (c1_rds_sg_rules sampleParams).1

/-- C2: the scheduler role is assumable exclusively by the service
principal `scheduler.amazonaws.com` and carries exactly one inline
statement whose actions are exactly `rds:StartDBInstance` and
`rds:StopDBInstance` and whose resources are exactly the one ARN of
the database instance declared in the stack, never a wildcard. -/
theorem c2_scheduler_role (p : StackParams) :
    (cdkProjectStack p).schedulerRole.trustPrincipals
        = [Principal.servicePrincipal "scheduler.amazonaws.com"]
      ∧ (cdkProjectStack p).schedulerRole.statements
        = [{ actions := ["rds:StartDBInstance", "rds:StopDBInstance"],
             resources := [(cdkProjectStack p).rdsInstance.instanceArn] }]
      ∧ ∀ s ∈ (cdkProjectStack p).schedulerRole.statements,
          ∀ r ∈ s.resources, r ≠ "*" := by
  refine ⟨rfl, rfl, ?_⟩
  intro s hs r hr
  have hs1 : s = PolicyStatement.mk
      ["rds:StartDBInstance", "rds:StopDBInstance"] [rdsInstanceArnOf p] := by
    simpa [cdkProjectStack, Role.addToPolicy] using hs
  subst hs1
  have hr1 : r = rdsInstanceArnOf p := by simpa using hr
  subst hr1
  exact rdsInstanceArnOf_ne_star p

/-- C2 witness: the role's statement at a concrete parameter
valuation, and the non-wildcard fact at the concrete ARN. -/
theorem c2_scheduler_role_witness :
    (cdkProjectStack sampleParams).schedulerRole.statements
        = [{ actions := ["rds:StartDBInstance", "rds:StopDBInstance"],
             resources :=
              ["arn:aws:rds:us-east-1:123456789012:db:rdsinstance1abc"] }]
      ∧ "arn:aws:rds:us-east-1:123456789012:db:rdsinstance1abc" ≠ "*" := by
  refine ⟨(c2_scheduler_role sampleParams).2.1, ?_⟩
  exact (c2_scheduler_role sampleParams).2.2
    (PolicyStatement.mk ["rds:StartDBInstance", "rds:StopDBInstance"]
      ["arn:aws:rds:us-east-1:123456789012:db:rdsinstance1abc"])
    (by decide)
    "arn:aws:rds:us-east-1:123456789012:db:rdsinstance1abc" (by decide)

/-- C3: both schedules embed the same database identifier in their
payloads, and it is exactly the identifier of the stack's own
database instance. -/
theorem c3_schedules_same_target (p : StackParams)
    (h : ∀ c ∈ p.dbInstanceIdentifier.data,
      c ≠ quoteChar ∧ c ≠ backslashChar) :
    (cdkProjectStack p).stopSchedule.target.input
        = (cdkProjectStack p).startSchedule.target.input
      ∧ parseJsonObject (cdkProjectStack p).stopSchedule.target.input
        = some [(dbKey, (cdkProjectStack p).rdsInstance.instanceIdentifier)]
      ∧ parseJsonObject (cdkProjectStack p).startSchedule.target.input
        = some [(dbKey, (cdkProjectStack p).rdsInstance.instanceIdentifier)] := by
  refine ⟨rfl, ?_, ?_⟩
  · exact parseJsonObject_interpolated p.dbInstanceIdentifier h
  · exact parseJsonObject_interpolated p.dbInstanceIdentifier h

/-- C3 witness: at a concrete parameter valuation both payloads
decode to the stack's own database identifier. -/
theorem c3_schedules_same_target_witness :
    (cdkProjectStack sampleParams).stopSchedule.target.input
        = (cdkProjectStack sampleParams).startSchedule.target.input
      ∧ parseJsonObject (cdkProjectStack sampleParams).stopSchedule.target.input
        = some [(dbKey, "rdsinstance1abc")] :=
  ⟨(c3_schedules_same_target sampleParams (by decide)).1,
   (c3_schedules_same_target sampleParams (by decide)).2.1⟩

/-- C4: the stop expression is exactly `cron(30 6 * * ? *)` and the
start expression exactly `cron(30 22 ? * MON-FRI *)`; the stop
expression fires exactly at minute 30 of hour 6 of every day, and
the start expression exactly at minute 30 of hour 22 of days whose
day-of-week is 2 (Monday) through 6 (Friday), never on Sunday (1) or
Saturday (7). -/
theorem c4_cron_expressions (p : StackParams) :
    (cdkProjectStack p).stopSchedule.scheduleExpression = "cron(30 6 * * ? *)"
      ∧ (cdkProjectStack p).startSchedule.scheduleExpression
          = "cron(30 22 ? * MON-FRI *)"
      ∧ parseCron (cdkProjectStack p).stopSchedule.scheduleExpression
          = some stopCronExpr
      ∧ parseCron (cdkProjectStack p).startSchedule.scheduleExpression
          = some startCronExpr
      ∧ (∀ minute hour dom mon dow year : Nat,
          firesAt stopCronExpr minute hour dom mon dow year = true
            ↔ minute = 30 ∧ hour = 6)
      ∧ (∀ minute hour dom mon dow year : Nat,
          firesAt startCronExpr minute hour dom mon dow year = true
            ↔ minute = 30 ∧ hour = 22 ∧ 2 ≤ dow ∧ dow ≤ 6)
      ∧ (∀ minute hour dom mon year : Nat,
          firesAt startCronExpr minute hour dom mon 1 year = false
            ∧ firesAt startCronExpr minute hour dom mon 7 year = false) := by
  refine ⟨rfl, rfl, ?_, ?_, ?_, ?_, ?_⟩
  · show parseCron "cron(30 6 * * ? *)" = some stopCronExpr
    decide
  · show parseCron "cron(30 22 ? * MON-FRI *)" = some startCronExpr
    decide
  · intro minute hour dom mon dow year
    simp [firesAt, stopCronExpr, fieldMatches]
  · intro minute hour dom mon dow year
    simp [firesAt, startCronExpr, fieldMatches, and_assoc]
  · intro minute hour dom mon year
    constructor <;> simp [firesAt, startCronExpr, fieldMatches]

/-- C4 witness: concrete firing instants. -/
theorem c4_cron_expressions_witness :
    firesAt stopCronExpr 30 6 15 3 4 2026 = true
      ∧ firesAt startCronExpr 30 22 16 3 6 2026 = true
      ∧ firesAt startCronExpr 30 22 14 3 1 2026 = false := by
  refine ⟨?_, ?_, ?_⟩
  · exact ((c4_cron_expressions sampleParams).2.2.2.2.1 30 6 15 3 4 2026).mpr
      ⟨rfl, rfl⟩
  · exact ((c4_cron_expressions sampleParams).2.2.2.2.2.1 30 22 16 3 6 2026).mpr
      ⟨rfl, rfl, by decide, by decide⟩
  · exact ((c4_cron_expressions sampleParams).2.2.2.2.2.2 30 22 14 3 2026).1

/-- C5: each schedule's delivered payload is a single-key JSON object
whose only key is exactly `DbInstanceIdentifier` bound to the target
database identifier, and the target provider actions are
`stopDBInstance` and `startDBInstance` respectively. -/
theorem c5_payload_contract (p : StackParams)
    (h : ∀ c ∈ p.dbInstanceIdentifier.data,
      c ≠ quoteChar ∧ c ≠ backslashChar) :
    parseJsonObject (cdkProjectStack p).stopSchedule.target.input
        = some [("DbInstanceIdentifier", p.dbInstanceIdentifier)]
      ∧ parseJsonObject (cdkProjectStack p).startSchedule.target.input
        = some [("DbInstanceIdentifier", p.dbInstanceIdentifier)]
      ∧ (cdkProjectStack p).stopSchedule.target.arn
        = "arn:aws:scheduler:::aws-sdk:rds:stopDBInstance"
      ∧ (cdkProjectStack p).startSchedule.target.arn
        = "arn:aws:scheduler:::aws-sdk:rds:startDBInstance" := by
  refine ⟨?_, ?_, rfl, rfl⟩
  · exact parseJsonObject_interpolated p.dbInstanceIdentifier h
  · exact parseJsonObject_interpolated p.dbInstanceIdentifier h

/-- C5 witness: the payload contract at a concrete parameter
valuation. -/
theorem c5_payload_contract_witness :
    parseJsonObject (cdkProjectStack sampleParams).stopSchedule.target.input
        = some [("DbInstanceIdentifier", "rdsinstance1abc")]
      ∧ (cdkProjectStack sampleParams).startSchedule.target.arn
        = "arn:aws:scheduler:::aws-sdk:rds:startDBInstance" :=
  ⟨(c5_payload_contract sampleParams (by decide)).1,
   (c5_payload_contract sampleParams (by decide)).2.2.2⟩

/-- C6: the one database instance of the stack runs MySQL pinned at
version 8.0.43 on a t3.micro burstable instance, is single-zone,
has 20 units of general-purpose SSD (gp2) storage, has deletion
protection disabled and removal policy destroy. -/
theorem c6_rds_instance_config (p : StackParams) :
    (cdkProjectStack p).resources.filter Resource.isDb
        = [Resource.rdsRes (cdkProjectStack p).rdsInstance]
      ∧ (cdkProjectStack p).rdsInstance.engine
        = DatabaseInstanceEngine.mysql MysqlEngineVersion.VER_8_0_43
      ∧ (cdkProjectStack p).rdsInstance.engine.engineVersion = "8.0.43"
      ∧ (cdkProjectStack p).rdsInstance.instanceType
        = InstanceType.of InstanceClass.T3 InstanceSize.MICRO
      ∧ (cdkProjectStack p).rdsInstance.multiAz = false
      ∧ (cdkProjectStack p).rdsInstance.allocatedStorage = 20
      ∧ (cdkProjectStack p).rdsInstance.storageType = StorageType.GP2
      ∧ (cdkProjectStack p).rdsInstance.deletionProtection = false
      ∧ (cdkProjectStack p).rdsInstance.removalPolicy = RemovalPolicy.DESTROY := by
  exact ⟨rfl, rfl, rfl, rfl, rfl, rfl, rfl, rfl, rfl⟩

/-- C6 witness: storage and availability-zone settings at a concrete
parameter valuation. -/
theorem c6_rds_instance_config_witness :
    (cdkProjectStack sampleParams).rdsInstance.allocatedStorage = 20
      ∧ (cdkProjectStack sampleParams).rdsInstance.multiAz = false :=
  ⟨(c6_rds_instance_config sampleParams).2.2.2.2.2.1,
   (c6_rds_instance_config sampleParams).2.2.2.2.1⟩

/-- C7: the stack declares exactly one virtual network; it requests
2 availability zones, spans at least 2 of them in any environment
offering at least 2, and contains both a public and a private subnet
tier. -/
theorem c7_network (p : StackParams) (h : 2 ≤ p.availableAzs) :
    (cdkProjectStack p).resources.filter Resource.isVpc
        = [Resource.vpcRes (cdkProjectStack p).vpc]
      ∧ (cdkProjectStack p).vpc.maxAzs = 2
      ∧ 2 ≤ (cdkProjectStack p).vpc.azCount
      ∧ SubnetTier.publicSubnet ∈ (cdkProjectStack p).vpc.subnetTiers
      ∧ SubnetTier.privateWithEgress ∈ (cdkProjectStack p).vpc.subnetTiers := by
  refine ⟨rfl, rfl, ?_, ?_, ?_⟩
  · show 2 ≤ min 2 p.availableAzs
    exact le_min (le_refl 2) h
  · show SubnetTier.publicSubnet ∈ defaultSubnetTiers
    decide
  · show SubnetTier.privateWithEgress ∈ defaultSubnetTiers
    decide

/-- C7 witness: the network facts at a concrete parameter valuation
with 6 availability zones. -/
theorem c7_network_witness :
    2 ≤ sampleParams.availableAzs
      ∧ 2 ≤ (cdkProjectStack sampleParams).vpc.azCount :=
  ⟨by decide, (c7_network sampleParams (by decide)).2.2.1⟩

/-- C8: the compute instance's security group consists of one ingress
rule permitting TCP port 22 from any IPv4 source. -/
theorem c8_instance_sg_ssh (p : StackParams) :
    (cdkProjectStack p).sg.ingressRules
        = [{ source := Peer.anyIpv4, port := Port.tcp 22,
             ruleDescription := "allow SSH" }]
      ∧ IngressRule.mk Peer.anyIpv4 (Port.tcp 22) "allow SSH"
          ∈ (cdkProjectStack p).sg.ingressRules := by
  refine ⟨rfl, ?_⟩
  show IngressRule.mk Peer.anyIpv4 (Port.tcp 22) "allow SSH"
      ∈ [IngressRule.mk Peer.anyIpv4 (Port.tcp 22) "allow SSH"]
  exact List.mem_singleton.mpr rfl

/-- C8 witness: the rule set at a concrete parameter valuation. -/
theorem c8_instance_sg_ssh_witness :
    (cdkProjectStack sampleParams).sg.ingressRules
      = [{ source := Peer.anyIpv4, port := Port.tcp 22,
           ruleDescription := "allow SSH" }] :=
  (c8_instance_sg_ssh sampleParams).1

/-- C9: the start schedule's description says 8 AM UTC while its cron
expression fires only at hour 22 (10:30 PM UTC): the description and
the expression name different times of day. -/
theorem c9_start_description_mismatch (p : StackParams) :
    (cdkProjectStack p).startSchedule.scheduleDescription
        = "Starts RDS instance at 8 AM UTC (Mon-Fri)"
      ∧ parseCron (cdkProjectStack p).startSchedule.scheduleExpression
          = some startCronExpr
      ∧ startCronExpr.hourF = CronField.exact 22
      ∧ (∀ minute hour dom mon dow year : Nat,
          firesAt startCronExpr minute hour dom mon dow year = true → hour = 22)
      ∧ (22 : Nat) ≠ 8 := by
  refine ⟨rfl, ?_, rfl, ?_, by decide⟩
  · show parseCron "cron(30 22 ? * MON-FRI *)" = some startCronExpr
    decide
  · intro minute hour dom mon dow year hf
    simp [firesAt, startCronExpr, fieldMatches, and_assoc] at hf
    exact hf.2.1

/-- C9 witness: the description at a concrete parameter valuation,
and the hour determined by a concrete firing instant. -/
theorem c9_start_description_mismatch_witness :
    (cdkProjectStack sampleParams).startSchedule.scheduleDescription
        = "Starts RDS instance at 8 AM UTC (Mon-Fri)"
      ∧ (22 : Nat) = 22 :=
  ⟨(c9_start_description_mismatch sampleParams).1,
   (c9_start_description_mismatch sampleParams).2.2.2.1
     30 22 16 3 6 2026 (by decide)⟩

/-- C10: each schedule's input is the string interpolation of the
database identifier (while the structured `target_payload` record is
merely built), and for every identifier with no quote and no
backslash the interpolated string reads back as a well-formed JSON
object with the single key `DbInstanceIdentifier` bound to exactly
that identifier. -/
theorem c10_interpolated_input_wellformed (p : StackParams) :
    (cdkProjectStack p).targetPayload
        = [(dbKey, (cdkProjectStack p).rdsInstance.instanceIdentifier)]
      ∧ (cdkProjectStack p).stopSchedule.target.input
        = interpolatedInput (cdkProjectStack p).rdsInstance.instanceIdentifier
      ∧ (cdkProjectStack p).startSchedule.target.input
        = interpolatedInput (cdkProjectStack p).rdsInstance.instanceIdentifier
      ∧ ∀ x : String, (∀ c ∈ x.data, c ≠ quoteChar ∧ c ≠ backslashChar) →
          parseJsonObject (interpolatedInput x)
            = some [("DbInstanceIdentifier", x)] := by
  refine ⟨rfl, rfl, rfl, ?_⟩
  intro x hx
  exact parseJsonObject_interpolated x hx

/-- C10 witness: the round trip at a concrete identifier. -/
theorem c10_interpolated_input_wellformed_witness :
    parseJsonObject (interpolatedInput "mydb")
      = some [("DbInstanceIdentifier", "mydb")] :=
  (c10_interpolated_input_wellformed sampleParams).2.2.2 "mydb" (by decide)

end CdkProject
